import Mathlib

/-!
Verification of the Exomiser web application (Flask/FastAPI variants).

Shallow embedding of the data model and operations of the repository:
  - models.py: enums, Individual, Analysis, generate_phenopacket_yaml
  - analysis.py: analysis_add/edit/delete/run/rerun/output, run_exomiser_analysis
  - individual.py / patient.py: subject add/edit with duplicate-identifier checks
  - task.py: task_edit (older schema variant)
  - main.py: the asyncio.Semaphore concurrency guard of the FastAPI variant

Database writes are modelled with commit semantics: a route returns the new
committed row (or table) state; paths that error, roll back, or return before
db.session.commit leave the row unchanged (flask-sqlalchemy rolls back any
uncommitted session at request teardown).
-/

/-- models.py SexType enum. -/
inductive SexType
  | MALE
  | FEMALE
  | OTHER
  | UNKNOWN
deriving DecidableEq, Repr

/-- Python Enum .value for SexType (the string each member carries). -/
def SexType.value : SexType → String
  | .MALE => "MALE"
  | .FEMALE => "FEMALE"
  | .OTHER => "OTHER"
  | .UNKNOWN => "UNKNOWN"

/-- models.py TaskStatus enum. -/
inductive TaskStatus
  | PENDING
  | RUNNING
  | COMPLETED
  | FAILED
  | CANCELLED
deriving DecidableEq, Repr

/-- models.py GenomeAssembly enum. -/
inductive GenomeAssembly
  | hg19
  | hg38
deriving DecidableEq, Repr

/-- GenomeAssembly(s): Python enum construction by value; raises ValueError on
any other string, modelled as none. -/
def genomeAssemblyOfString? (s : String) : Option GenomeAssembly :=
  if s = "hg19" then some GenomeAssembly.hg19
  else if s = "hg38" then some GenomeAssembly.hg38
  else none

/-- One HPO term record as stored in the hpo_terms JSON column:
a dict with keys id and label. -/
structure HpoTerm where
  id : String
  label : String
deriving DecidableEq, Repr

/-- models.py Individual row (the schema variant in src/app/models.py, where
the external identifier column is named identity; check_db.py records that it
was renamed from individual_id). Timestamps abstracted to Nat. -/
structure Individual where
  id : Nat
  identity : String
  full_name : String
  sex : SexType
  age_years : Nat
  medical_history : Option String
  diagnosis : Option String
  hpo_terms : List HpoTerm
  vcf_filename : Option String
  vcf_file_path : String
  phenopacket_yaml : Option String
  created_by : Nat
  updated_by : Nat
  created_at : Nat
deriving DecidableEq, Repr

/-! ## Model of yaml.dump(obj, default_flow_style=False, sort_keys=False)

The values serialized by generate_phenopacket_yaml are nested dicts, lists and
strings.  YamlVal mirrors that shape; the emitter below reproduces pyyaml block
style for these shapes: mappings keep insertion order (sort_keys=False), nested
mappings indent by 2, sequences are not extra-indented relative to their key,
and a mapping item in a sequence starts inline after the dash. -/

inductive YamlVal
  | s (v : String)
  | arr (items : List YamlVal)
  | obj (fields : List (String × YamlVal))

/-- n spaces. -/
def pad (n : Nat) : String :=
  String.pushn "" ' ' n

/-- Split a character list at every occurrence of the separator character
(Python str.split with a one-character separator). -/
def splitOnChar (c : Char) : List Char → List (List Char)
  | [] => [[]]
  | a :: as =>
    let r := splitOnChar c as
    if a = c then [] :: r
    else match r with
      | [] => [[a]]
      | g :: gs => (a :: g) :: gs

/-- Python str.strip: remove leading and trailing whitespace. -/
def pyStrip (s : String) : String :=
  String.mk (((s.data.dropWhile Char.isWhitespace).reverse.dropWhile Char.isWhitespace).reverse)

/-- The first list starts with the second one. -/
def charsLeading : List Char → List Char → Bool
  | _, [] => true
  | [], _ :: _ => false
  | a :: as, b :: bs => a = b && charsLeading as bs

/-- Python str.endswith. -/
def pyEndsWith (s suffixStr : String) : Bool :=
  charsLeading s.data.reverse suffixStr.data.reverse

/-- The first list contains the second as a contiguous run. -/
def charsContain (hay needle : List Char) : Bool :=
  charsLeading hay needle ||
    match hay with
    | [] => false
    | _ :: t => charsContain t needle

/-- Python `needle in hay` on strings: substring test. -/
def strContains (hay needle : String) : Bool :=
  charsContain hay.data needle.data

def charsDigits (cs : List Char) : Bool :=
  !cs.isEmpty && cs.all Char.isDigit

/-- The string would resolve as a YAML int or float (e.g. "10", "1.0"),
so pyyaml single-quotes it to keep it a string. -/
def isNumberLike (s : String) : Bool :=
  match splitOnChar '.' s.data with
  | [a] => charsDigits a
  | [a, b] => charsDigits a && charsDigits b
  | _ => false

/-- The string would resolve as a YAML timestamp (starts like YYYY-),
so pyyaml single-quotes it. -/
def isTimestampLike (s : String) : Bool :=
  match s.data with
  | a :: b :: c :: d :: e :: _ => a.isDigit && b.isDigit && c.isDigit && d.isDigit && e = '-'
  | _ => false

/-- Scalar emission: plain style unless the string is empty or would resolve
as a non-string tag, in which case it is single-quoted. -/
def emitScalar (s : String) : String :=
  if s = "" then "\x27\x27"
  else if isNumberLike s || isTimestampLike s then "\x27" ++ s ++ "\x27"
  else s

mutual

/-- Lines of one mapping entry at the given indent. -/
def yamlFieldLines (ind : Nat) (f : String × YamlVal) : List String :=
  match f with
  | (k, YamlVal.s v) => [pad ind ++ k ++ ": " ++ emitScalar v]
  | (k, YamlVal.arr []) => [pad ind ++ k ++ ": []"]
  | (k, YamlVal.arr (x :: xs)) =>
      (pad ind ++ k ++ ":") :: yamlItemsLines ind (x :: xs)
  | (k, YamlVal.obj []) => [pad ind ++ k ++ ": \x7b\x7d"]
  | (k, YamlVal.obj (g :: gs)) =>
      (pad ind ++ k ++ ":") :: yamlFieldsLines (ind + 2) (g :: gs)

/-- Lines of a mapping at the given indent. -/
def yamlFieldsLines (ind : Nat) (fs : List (String × YamlVal)) : List String :=
  match fs with
  | [] => []
  | f :: rest => yamlFieldLines ind f ++ yamlFieldsLines ind rest

/-- Lines of one sequence item at the given indent (the dash column). -/
def yamlItemLines (ind : Nat) (v : YamlVal) : List String :=
  match v with
  | YamlVal.s w => [pad ind ++ "- " ++ emitScalar w]
  | YamlVal.arr [] => [pad ind ++ "- []"]
  | YamlVal.arr (x :: xs) =>
      match yamlItemsLines (ind + 2) (x :: xs) with
      | [] => [pad ind ++ "-"]
      | l :: rest => (pad ind ++ "- " ++ l.drop (ind + 2)) :: rest
  | YamlVal.obj [] => [pad ind ++ "- \x7b\x7d"]
  | YamlVal.obj (g :: gs) =>
      match yamlFieldsLines (ind + 2) (g :: gs) with
      | [] => [pad ind ++ "-"]
      | l :: rest => (pad ind ++ "- " ++ l.drop (ind + 2)) :: rest

/-- Lines of a sequence at the given indent. -/
def yamlItemsLines (ind : Nat) (xs : List YamlVal) : List String :=
  match xs with
  | [] => []
  | x :: rest => yamlItemLines ind x ++ yamlItemsLines ind rest

end

/-- yaml.dump(v, default_flow_style=False, sort_keys=False): block style,
insertion key order, trailing newline. -/
def yamlDump (v : YamlVal) : String :=
  match v with
  | YamlVal.s w => emitScalar w ++ "\n"
  | YamlVal.arr xs => String.intercalate "\n" (yamlItemsLines 0 xs) ++ "\n"
  | YamlVal.obj fs => String.intercalate "\n" (yamlFieldsLines 0 fs) ++ "\n"

/-- Mapping lookup on a YamlVal (first entry wins, as in a Python dict). -/
def YamlVal.get? (v : YamlVal) (k : String) : Option YamlVal :=
  match v with
  | YamlVal.obj fs => (fs.find? (fun f => f.1 = k)).map (fun f => f.2)
  | _ => none

/-- os.path.basename for the slash-separated paths used here. -/
def basename (p : String) : String :=
  String.mk ((splitOnChar '/' p.data).getLastD p.data)

/-- The sex_map dict lookup with default "UNKNOWN_SEX"
(models.py lines 117-122, 142). -/
def sex_map_get (k : String) : String :=
  if k = "MALE" then "MALE"
  else if k = "FEMALE" then "FEMALE"
  else if k = "OTHER" then "OTHER_SEX"
  else if k = "UNKNOWN" then "UNKNOWN_SEX"
  else "UNKNOWN_SEX"

/-- The nested dict built by Individual.generate_phenopacket_yaml
(models.py lines 108-179) before serialization.  nowIso stands for
datetime.utcnow().isoformat() at the moment of generation; the code appends
"Z" to it.  Key insertion order follows the source: the subject dict gains its
age key after id and sex, and the phenopacket dict gains htsFiles last. -/
def phenopacketObj (ind : Individual) (creator nowIso : String) : YamlVal :=
  let phenotypic_features : List YamlVal :=
    ind.hpo_terms.map (fun t =>
      YamlVal.obj [("type", YamlVal.obj [("id", YamlVal.s t.id), ("label", YamlVal.s t.label)])])
  let subjectFields : List (String × YamlVal) :=
    [("id", YamlVal.s ind.identity),
     ("sex", YamlVal.s (sex_map_get ind.sex.value))]
    ++ (if ind.age_years ≠ 0 then
          [("age", YamlVal.obj [("age", YamlVal.s (toString ind.age_years ++ "Y"))])]
        else [])
  let metaData : YamlVal :=
    YamlVal.obj
      [("created", YamlVal.s (nowIso ++ "Z")),
       ("createdBy", YamlVal.s creator),
       ("resources", YamlVal.arr
         [YamlVal.obj
           [("id", YamlVal.s "hp"),
            ("name", YamlVal.s "human phenotype ontology"),
            ("url", YamlVal.s "http://purl.obolibrary.org/obo/hp.owl"),
            ("version", YamlVal.s "hp/releases/latest"),
            ("namespacePrefix", YamlVal.s "HP"),
            ("iriPrefix", YamlVal.s "http://purl.obolibrary.org/obo/HP_")]]),
       ("phenopacketSchemaVersion", YamlVal.s "1.0")]
  let baseFields : List (String × YamlVal) :=
    [("id", YamlVal.s ind.identity),
     ("subject", YamlVal.obj subjectFields),
     ("phenotypicFeatures", YamlVal.arr phenotypic_features),
     ("metaData", metaData)]
  let allFields : List (String × YamlVal) :=
    baseFields
    ++ (if ind.vcf_file_path ≠ "" then
          [("htsFiles", YamlVal.arr
            [YamlVal.obj
              [("uri", YamlVal.s ("ikdrc/vcf/" ++ basename ind.vcf_file_path)),
               ("htsFormat", YamlVal.s "VCF"),
               ("genomeAssembly", YamlVal.s "hg19")]])]
        else [])
  YamlVal.obj [("phenopacket", YamlVal.obj allFields)]

/-- Individual.generate_phenopacket_yaml (models.py lines 108-182): build the
phenopacket dict and serialize it with
yaml.dump(obj, default_flow_style=False, sort_keys=False). -/
def generate_phenopacket_yaml (ind : Individual) (creator nowIso : String) : String :=
  yamlDump (phenopacketObj ind creator nowIso)

/-- Sample HPO term from the spec scenario. -/
def sampleHpoTerm : HpoTerm := { id := "HP:0001250", label := "Seizures" }

/-- Sample subject from the spec scenario: identity P0001, age 10, one
phenotype term, a VCF file on record. -/
def sampleIndividual : Individual :=
  { id := 1
    identity := "P0001"
    full_name := "Jane Roe"
    sex := SexType.MALE
    age_years := 10
    medical_history := none
    diagnosis := none
    hpo_terms := [sampleHpoTerm]
    vcf_filename := some "sample.vcf"
    vcf_file_path := "/opt/exomiser/ikdrc/vcf/1_P0001_ab12cd34.vcf"
    phenopacket_yaml := none
    created_by := 1
    updated_by := 1
    created_at := 0 }

/-! ## Analysis job model and routes (models.py Analysis, analysis.py) -/

/-- models.py Analysis row.  Timestamps abstracted to Nat, float columns to ℚ. -/
structure Analysis where
  id : Nat
  name : String
  description : Option String
  vcf_filename : String
  genome_assembly : GenomeAssembly
  analysis_mode : String
  frequency_threshold : ℚ
  pathogenicity_threshold : ℚ
  status : TaskStatus
  results_directory : Option String
  output_html : Option String
  phenopacket_path : Option String
  started_at : Option Nat
  completed_at : Option Nat
  error_message : Option String
  individual_id : Nat
  created_by : Nat
  updated_by : Nat
deriving DecidableEq, Repr

/-- The POSTed analysis form as analysis_add/analysis_edit read it:
request.form.get with defaults; numeric fields may be absent (none). -/
structure AnalysisForm where
  name : String
  description : String
  individual_id : Option Nat
  vcf_filename : String
  genome_assembly : String
  analysis_mode : String
  frequency_threshold : Option ℚ
  pathogenicity_threshold : Option ℚ
deriving Repr

/-- Python `x or d` for a float form field: None and 0.0 are falsy. -/
def pyOrDefault (x : Option ℚ) (d : ℚ) : ℚ :=
  match x with
  | some v => if v = 0 then d else v
  | none => d

/-- analysis_add POST (analysis.py lines 31-89): validations in source order,
then a new row with status defaulting to PENDING.  A validation failure or the
ValueError from GenomeAssembly(...) leaves the table unchanged (none).
individualIds is the set of existing Individual primary keys. -/
def analysis_add (individualIds : List Nat) (form : AnalysisForm) (uid freshId : Nat) :
    Option Analysis :=
  match genomeAssemblyOfString? form.genome_assembly with
  | none => none
  | some ga =>
    let name := (pyStrip form.name)
    if name = "" then none
    else match form.individual_id with
    | none => none
    | some iid =>
      if iid = 0 then none
      else if (pyStrip form.vcf_filename) = "" then none
      else if !(individualIds.contains iid) then none
      else
        some
          { id := freshId
            name := name
            description := some (pyStrip form.description)
            vcf_filename := (pyStrip form.vcf_filename)
            genome_assembly := ga
            analysis_mode := form.analysis_mode
            frequency_threshold := pyOrDefault form.frequency_threshold 1
            pathogenicity_threshold := pyOrDefault form.pathogenicity_threshold (1/2)
            status := TaskStatus.PENDING
            results_directory := none
            output_html := none
            phenopacket_path := none
            started_at := none
            completed_at := none
            error_message := none
            individual_id := iid
            created_by := uid
            updated_by := uid }

/-- analysis_edit POST (analysis.py lines 100-148).  Returns the committed row
and whether the edit was accepted.  The RUNNING guard (line 103) fires before
any field is touched; every rejected or failing path returns before
db.session.commit, so the row is unchanged.  On success, a FAILED or CANCELLED
job is reset to PENDING with its error cleared (lines 137-139); output_html is
not touched. -/
def analysis_edit (individualIds : List Nat) (a : Analysis) (form : AnalysisForm)
    (uid : Nat) : Analysis × Bool :=
  if a.status = TaskStatus.RUNNING then (a, false)
  else match genomeAssemblyOfString? form.genome_assembly with
  | none => (a, false)
  | some ga =>
    let name := (pyStrip form.name)
    if name = "" then (a, false)
    else match form.individual_id with
    | none => (a, false)
    | some iid =>
      if iid = 0 then (a, false)
      else if !(individualIds.contains iid) then (a, false)
      else
        let reset := a.status = TaskStatus.FAILED ∨ a.status = TaskStatus.CANCELLED
        ({ a with
            name := name
            description := if (pyStrip form.description) = "" then none else some (pyStrip form.description)
            individual_id := iid
            vcf_filename := (pyStrip form.vcf_filename)
            genome_assembly := ga
            analysis_mode := form.analysis_mode
            frequency_threshold := pyOrDefault form.frequency_threshold 1
            pathogenicity_threshold := pyOrDefault form.pathogenicity_threshold (1/2)
            updated_by := uid
            status := if reset then TaskStatus.PENDING else a.status
            error_message := if reset then none else a.error_message }, true)

/-- analysis_delete POST (analysis.py lines 156-175) over the analyses table:
404 when the id is absent; a RUNNING analysis is not deleted (lines 161-163);
otherwise the row is removed. -/
def analysis_delete (db : List Analysis) (analysis_id : Nat) : List Analysis × Bool :=
  match db.find? (fun a => a.id = analysis_id) with
  | none => (db, false)
  | some a =>
    if a.status = TaskStatus.RUNNING then (db, false)
    else (db.filter (fun r => !(r.id = analysis_id)), true)

/-- analysis_run POST (analysis.py lines 185-209): only a PENDING or FAILED
job is started; it becomes RUNNING with a start time and cleared error, and
the background runner is launched (the returned Bool). -/
def analysis_run (a : Analysis) (now : Nat) : Analysis × Bool :=
  if a.status = TaskStatus.PENDING ∨ a.status = TaskStatus.FAILED then
    ({ a with
        status := TaskStatus.RUNNING
        started_at := some now
        error_message := none }, true)
  else (a, false)

/-- analysis_rerun POST (analysis.py lines 229-247): unconditionally resets
status to PENDING, clears timestamps, error and output_html, commits, then
launches the background runner (the returned Bool). -/
def analysis_rerun (a : Analysis) (uid : Nat) : Analysis × Bool :=
  ({ a with
      status := TaskStatus.PENDING
      started_at := none
      completed_at := none
      error_message := none
      output_html := none
      updated_by := uid }, true)

/-- The JSON body returned by the analysis_output polling route. -/
structure OutputResponse where
  success : Bool
  output : List String
  line_count : Nat
deriving DecidableEq, Repr

/-- analysis_output (analysis.py lines 255-268): the analysis_outputs global
dict modelled as an association list keyed by analysis id.  A missing key
yields success with an empty list, never an error. -/
def analysis_output (outputs : List (Nat × List String)) (analysis_id : Nat) :
    OutputResponse :=
  match outputs.find? (fun e => e.1 = analysis_id) with
  | some e => { success := true, output := e.2, line_count := e.2.length }
  | none => { success := true, output := [], line_count := 0 }

/-! ## Background runner (analysis.py run_exomiser_analysis, lines 314-441)

The runner calls individual.generate_phenopacket_yaml with keyword arguments
creator, genome_assembly and vcf_filename (analysis.py lines 336-340), but the
method defined in models.py line 108 accepts only creator besides self, so the
call raises TypeError before the subprocess is ever launched.  The keyword
check of the Python call is modelled explicitly so that both the exception
branch (lines 430-441) and the dead exit-code branch (lines 356-418) appear in
the embedding. -/

/-- Keyword parameters accepted by Individual.generate_phenopacket_yaml as
defined in models.py line 108: only creator (besides self). -/
def generate_phenopacket_yaml_kwparams : List String := ["creator"]

/-- Keyword arguments the runner passes at analysis.py lines 336-340. -/
def runner_phenopacket_kwargs : List String := ["creator", "genome_assembly", "vcf_filename"]

/-- Python call semantics for keyword arguments: the first keyword not in the
signature raises TypeError with the standard message. -/
def pyKwargCheck (accepted passed : List String) : Except String Unit :=
  match passed.find? (fun k => !(accepted.contains k)) with
  | some k =>
      Except.error
        ("generate_phenopacket_yaml() got an unexpected keyword argument \x27" ++ k ++ "\x27")
  | none => Except.ok ()

/-- The external world as the runner observes it: wall-clock instants, the
exit code and combined output of the Exomiser subprocess, and the contents of
the fixed results directory /opt/exomiser/ikdrc/results. -/
structure RunnerEnv where
  startTime : Nat
  finishTime : Nat
  exitCode : Int
  processLines : List String
  resultsDirExists : Bool
  resultsListing : List String
deriving Repr

/-- run_exomiser_analysis (analysis.py lines 314-441) for an existing analysis
row and its individual.  Returns the committed row and the in-memory output
buffer.  Steps in source order: mark RUNNING (lines 328-330), call
generate_phenopacket_yaml (336-340; raises TypeError, caught at 430 and stored
as FAILED with the exception text), else (dead code) write the phenopacket,
invoke the subprocess, collect stripped non-empty lines (376-389), and branch
on the exit code (395-416): 0 sets COMPLETED, clears the error and records the
first HTML file in the results directory whose name contains the identity of
the individual; nonzero sets FAILED with the exit code in the message. -/
def run_exomiser_analysis (env : RunnerEnv) (ind : Individual) (a : Analysis) :
    Analysis × List String :=
  let a1 := { a with status := TaskStatus.RUNNING, started_at := some env.startTime }
  let out0 := ["Starting Exomiser analysis..."]
  match pyKwargCheck generate_phenopacket_yaml_kwparams runner_phenopacket_kwargs with
  | Except.error e =>
      ({ a1 with
          status := TaskStatus.FAILED
          error_message := some ("Error running analysis: " ++ e) },
       out0 ++ ["Error: " ++ e, "Analysis failed due to error"])
  | Except.ok _ =>
      let phenopacket_file := "/opt/exomiser/ikdrc/phenopacket/analysis_" ++ toString a.id ++ ".yml"
      let a2 := { a1 with phenopacket_path := some phenopacket_file }
      let cmdStr := "java -Xmx4g -jar /opt/exomiser/exomiser-cli-14.1.0.jar --analysis /opt/exomiser/analysis.yml --sample " ++ phenopacket_file
      let out1 := out0 ++ ["Generated phenopacket: " ++ phenopacket_file,
                           "Running command: " ++ cmdStr]
      let out2 := out1 ++ (env.processLines.map pyStrip).filter (fun l => l ≠ "")
      if env.exitCode = 0 then
        let a3 := { a2 with
            status := TaskStatus.COMPLETED
            completed_at := some env.finishTime
            error_message := none
            results_directory := some "/opt/exomiser/ikdrc/results" }
        let out3 := out2 ++ ["Analysis completed successfully!"]
        match (if env.resultsDirExists then
                 env.resultsListing.find?
                   (fun f => pyEndsWith f ".html" && strContains f ind.identity)
               else none) with
        | some f =>
            ({ a3 with output_html := some ("/opt/exomiser/ikdrc/results/" ++ f) },
             out3 ++ ["Results saved to: " ++ f])
        | none => (a3, out3)
      else
        ({ a2 with
            status := TaskStatus.FAILED
            error_message := some ("Exomiser process failed with return code " ++ toString env.exitCode) },
         out2 ++ ["Analysis failed with return code: " ++ toString env.exitCode])

/-- A PENDING analysis row against sampleIndividual. -/
def samplePendingAnalysis : Analysis :=
  { id := 1
    name := "run1"
    description := none
    vcf_filename := "sample.vcf"
    genome_assembly := GenomeAssembly.hg19
    analysis_mode := "FULL"
    frequency_threshold := 1
    pathogenicity_threshold := 1/2
    status := TaskStatus.PENDING
    results_directory := none
    output_html := none
    phenopacket_path := none
    started_at := none
    completed_at := none
    error_message := none
    individual_id := 1
    created_by := 1
    updated_by := 1 }

/-- An environment in which the external tool would exit 0 and the results
directory holds an HTML report whose name contains the identity P0001. -/
def sampleEnvOk : RunnerEnv :=
  { startTime := 100
    finishTime := 200
    exitCode := 0
    processLines := ["done", ""]
    resultsDirExists := true
    resultsListing := ["P0001-exomiser.html"] }

/-! ## Subject CRUD variants (individual.py, patient.py) and task.py

individual.py targets the schema variant in which the subject table is global
and the external identifier attribute is named individual_id (renamed to
identity in src/app/models.py; check_db.py documents the rename).  patient.py
and task.py target the older user-scoped variant whose Patient and Task model
classes are imported from models.py but are not under src/. -/

/-- The subject add/edit form as individual_add, individual_edit, patient_add
and patient_edit read it.  vcf_file is the uploaded file name (none when no
file was attached); hpo_terms is the already-decoded JSON list. -/
structure SubjectForm where
  individual_id : String
  full_name : String
  sex : String
  age_years : Option Nat
  medical_history : String
  diagnosis : String
  hpo_terms : List HpoTerm
  vcf_file : Option String
deriving Repr

/-- SexType(s): Python enum construction by value; raises ValueError
otherwise. -/
def sexTypeOfString? (s : String) : Option SexType :=
  if s = "MALE" then some SexType.MALE
  else if s = "FEMALE" then some SexType.FEMALE
  else if s = "OTHER" then some SexType.OTHER
  else if s = "UNKNOWN" then some SexType.UNKNOWN
  else none

/-- individual_add POST (individual.py lines 46-137) over the global
individuals table.  Validations in source order (lines 67-86), then the
duplicate check across all users (lines 91-95), then file save and insert.
suffix stands for the uuid4 fragment of the stored filename.  Every rejected
path leaves the table unchanged. -/
def individual_add (db : List Individual) (uid : Nat) (form : SubjectForm)
    (freshId : Nat) (suffix : String) : List Individual × Bool :=
  let individual_id := (pyStrip form.individual_id)
  let full_name := (pyStrip form.full_name)
  let ageOk : Bool := match form.age_years with
    | none => false
    | some n => n != 0
  let fileOk : Bool := match form.vcf_file with
    | none => false
    | some f => f != ""
  if individual_id == "" || full_name == "" || !ageOk || form.hpo_terms.isEmpty || !fileOk then
    (db, false)
  else if db.any (fun r => r.identity = individual_id) then
    (db, false)
  else match sexTypeOfString? form.sex, form.age_years, form.vcf_file with
  | some sx, some age, some origName =>
      let ext := match splitOnChar '.' origName.data with
        | [_] => ""
        | parts => "." ++ String.mk (parts.getLastD [])
      (db ++ [{ id := freshId
                identity := individual_id
                full_name := full_name
                sex := sx
                age_years := age
                medical_history := if (pyStrip form.medical_history) = "" then none
                                   else some (pyStrip form.medical_history)
                diagnosis := if (pyStrip form.diagnosis) = "" then none
                             else some (pyStrip form.diagnosis)
                hpo_terms := form.hpo_terms
                vcf_filename := some origName
                vcf_file_path := "/opt/exomiser/ikdrc/vcf/" ++ toString uid ++ "_"
                                   ++ individual_id ++ "_" ++ suffix ++ ext
                phenopacket_yaml := none
                created_by := uid
                updated_by := uid
                created_at := 0 }], true)
  | _, _, _ => (db, false)

/-- individual_edit POST (individual.py lines 150-216).  The row fields are
assigned first, but nothing is committed before the validation (line 199) and
the duplicate check excluding the edited row (lines 203-207); a rejection (or
the ValueError from SexType) rolls back, leaving the table unchanged. -/
def individual_edit (db : List Individual) (rowId uid : Nat) (form : SubjectForm)
    (suffix : String) : List Individual × Bool :=
  match db.find? (fun r => r.id = rowId) with
  | none => (db, false)
  | some row =>
    match sexTypeOfString? form.sex with
    | none => (db, false)
    | some sx =>
      let newIdentity := (pyStrip form.individual_id)
      if newIdentity = "" then (db, false)
      else if db.any (fun r => r.identity = newIdentity ∧ r.id ≠ rowId) then (db, false)
      else
        let withFile :=
          match form.vcf_file with
          | some f =>
              if f ≠ "" then
                let ext := if pyEndsWith f ".gz" then ".vcf.gz" else ".vcf"
                { row with
                    vcf_filename := some f
                    vcf_file_path := "/opt/exomiser/ikdrc/vcf/" ++ newIdentity ++ "_"
                                       ++ suffix ++ ext }
              else row
          | none => row
        let updated := { withFile with
            identity := newIdentity
            full_name := (pyStrip form.full_name)
            sex := sx
            age_years := (form.age_years).getD 0
            medical_history := if (pyStrip form.medical_history) = "" then none
                               else some (pyStrip form.medical_history)
            diagnosis := if (pyStrip form.diagnosis) = "" then none
                         else some (pyStrip form.diagnosis)
            hpo_terms := form.hpo_terms
            updated_by := uid }
        (db.map (fun r => if r.id = rowId then updated else r), true)

/-- Modelled from the spec: the Patient model class (imported by patient.py
from models.py but absent from src/): the user-scoped subject variant of spec
section 3, whose external identifier is unique per owning user. -/
structure Patient where
  id : Nat
  user_id : Nat
  individual_id : String
  full_name : String
  sex : SexType
  age_years : Nat
  medical_history : Option String
  diagnosis : Option String
  hpo_terms : List HpoTerm
  vcf_file_path : String
  phenopacket_yaml : Option String
deriving DecidableEq, Repr

/-- patient_add POST (patient.py lines 22-111): validations as in
individual_add, then the duplicate check scoped to the current user
(lines 67-71), then file save and insert. -/
def patient_add (db : List Patient) (uid : Nat) (form : SubjectForm)
    (freshId : Nat) (suffix : String) : List Patient × Bool :=
  let individual_id := (pyStrip form.individual_id)
  let full_name := (pyStrip form.full_name)
  let ageOk : Bool := match form.age_years with
    | none => false
    | some n => n != 0
  let fileOk : Bool := match form.vcf_file with
    | none => false
    | some f => f != ""
  if individual_id == "" || full_name == "" || !ageOk || form.hpo_terms.isEmpty || !fileOk then
    (db, false)
  else if db.any (fun r => r.user_id = uid ∧ r.individual_id = individual_id) then
    (db, false)
  else match sexTypeOfString? form.sex, form.age_years, form.vcf_file with
  | some sx, some age, some origName =>
      let ext := match splitOnChar '.' origName.data with
        | [_] => ""
        | parts => "." ++ String.mk (parts.getLastD [])
      (db ++ [{ id := freshId
                user_id := uid
                individual_id := individual_id
                full_name := full_name
                sex := sx
                age_years := age
                medical_history := if (pyStrip form.medical_history) = "" then none
                                   else some (pyStrip form.medical_history)
                diagnosis := if (pyStrip form.diagnosis) = "" then none
                             else some (pyStrip form.diagnosis)
                hpo_terms := form.hpo_terms
                vcf_file_path := "/opt/exomiser/ikdrc/vcf/" ++ toString uid ++ "_"
                                   ++ individual_id ++ "_" ++ suffix ++ ext
                phenopacket_yaml := none }], true)
  | _, _, _ => (db, false)

/-- patient_edit POST (patient.py lines 117-160): the row is looked up scoped
to the current user (first_or_404), fields assigned, then validation and the
user-scoped duplicate check excluding the edited row (lines 148-151); any
rejection leaves the table unchanged. -/
def patient_edit (db : List Patient) (rowId uid : Nat) (form : SubjectForm) :
    List Patient × Bool :=
  match db.find? (fun r => r.id = rowId ∧ r.user_id = uid) with
  | none => (db, false)
  | some row =>
    match sexTypeOfString? form.sex with
    | none => (db, false)
    | some sx =>
      let newIdentity := (pyStrip form.individual_id)
      if newIdentity = "" then (db, false)
      else if db.any (fun r => r.user_id = uid ∧ r.individual_id = newIdentity ∧ r.id ≠ rowId) then
        (db, false)
      else
        let updated := { row with
            individual_id := newIdentity
            full_name := (pyStrip form.full_name)
            sex := sx
            age_years := (form.age_years).getD 0
            medical_history := if (pyStrip form.medical_history) = "" then none
                               else some (pyStrip form.medical_history)
            diagnosis := if (pyStrip form.diagnosis) = "" then none
                         else some (pyStrip form.diagnosis)
            hpo_terms := form.hpo_terms }
        (db.map (fun r => if r.id = rowId then updated else r), true)

/-- Modelled from the spec: the Task model class (imported by task.py from
models.py but absent from src/): the older Job variant of spec section 3,
owned by a user and referencing a Patient.  Named TaskRow because Task is
taken by the Lean core library. -/
structure TaskRow where
  id : Nat
  name : String
  description : Option String
  patient_id : Nat
  vcf_filename : String
  genome_assembly : GenomeAssembly
  analysis_mode : String
  frequency_threshold : ℚ
  pathogenicity_threshold : ℚ
  status : TaskStatus
  error_message : Option String
  user_id : Nat
deriving DecidableEq, Repr

/-- The task edit form as task_edit reads it (task.py lines 95-102). -/
structure TaskForm where
  name : String
  description : String
  patient_id : Option Nat
  vcf_filename : String
  genome_assembly : String
  analysis_mode : String
  frequency_threshold : Option ℚ
  pathogenicity_threshold : Option ℚ
deriving Repr

/-- task_edit POST (task.py lines 88-131): the RUNNING guard (lines 91-93)
fires before any field is touched; rejected paths return before commit, so the
row is unchanged.  userPatientIds is the set of Patient primary keys owned by
the current user (line 114).  A FAILED or CANCELLED task resets to PENDING
with its error cleared (lines 120-122). -/
def task_edit (userPatientIds : List Nat) (t : TaskRow) (form : TaskForm) : TaskRow × Bool :=
  if t.status = TaskStatus.RUNNING then (t, false)
  else match genomeAssemblyOfString? form.genome_assembly with
  | none => (t, false)
  | some ga =>
    let name := (pyStrip form.name)
    if name = "" then (t, false)
    else match form.patient_id with
    | none => (t, false)
    | some pid =>
      if pid = 0 then (t, false)
      else if !(userPatientIds.contains pid) then (t, false)
      else
        let reset := t.status = TaskStatus.FAILED ∨ t.status = TaskStatus.CANCELLED
        ({ t with
            name := name
            description := if (pyStrip form.description) = "" then none else some (pyStrip form.description)
            patient_id := pid
            vcf_filename := (pyStrip form.vcf_filename)
            genome_assembly := ga
            analysis_mode := form.analysis_mode
            frequency_threshold := pyOrDefault form.frequency_threshold 1
            pathogenicity_threshold := pyOrDefault form.pathogenicity_threshold (1/2)
            status := if reset then TaskStatus.PENDING else t.status
            error_message := if reset then none else t.error_message }, true)

/-! ## Concurrency guard of the FastAPI variant (main.py lines 36-118)

main.py caps concurrently-executing external processes with
asyncio.Semaphore(MAX_CONCURRENT_TASKS); the run handler wraps the subprocess
invocation in `async with semaphore`.  The discipline is modelled as a counting
transition system: a caller entering the handler starts waiting on the
semaphore; it acquires only while the counter is positive (otherwise it stays
blocked); the counter is restored when its subprocess finishes and the
`async with` block exits. -/

/-- main.py line 37. -/
def MAX_CONCURRENT_TASKS : Nat := 1

/-- Counting state of the semaphore discipline: the semaphore counter, the
callers blocked on acquire, and the callers inside the `async with` block
(each running one external process). -/
structure SemState where
  sem : Nat
  waiting : Nat
  active : Nat
deriving DecidableEq, Repr

/-- Initial state: semaphore = asyncio.Semaphore(MAX_CONCURRENT_TASKS)
(main.py line 40), nobody waiting or running. -/
def semStart : SemState :=
  { sem := MAX_CONCURRENT_TASKS, waiting := 0, active := 0 }

/-- One step of the semaphore discipline of main.py run (lines 82-118). -/
inductive SemStep : SemState → SemState → Prop
  | request (s : SemState) :
      SemStep s { s with waiting := s.waiting + 1 }
  | acquire (s : SemState) :
      0 < s.waiting → 0 < s.sem →
      SemStep s { sem := s.sem - 1, waiting := s.waiting - 1, active := s.active + 1 }
  | release (s : SemState) :
      0 < s.active →
      SemStep s { sem := s.sem + 1, waiting := s.waiting, active := s.active - 1 }

/-- States reachable from the start by any interleaving of run requests. -/
def SemReachable (s : SemState) : Prop :=
  Relation.ReflTransGen SemStep semStart s

/-! ## The job-status transition system of the analysis subsystem (for the
CANCELLED-unreachability property). -/

/-- One user- or runner-initiated operation of the analysis job subsystem that
acts on an existing job row. -/
inductive JobOp
  | editOp (individualIds : List Nat) (form : AnalysisForm) (uid : Nat)
  | runOp (now : Nat)
  | rerunOp (uid : Nat)
  | runnerOp (env : RunnerEnv) (ind : Individual)

/-- The committed row after one operation. -/
def applyJobOp (op : JobOp) (a : Analysis) : Analysis :=
  match op with
  | JobOp.editOp ids form uid => (analysis_edit ids a form uid).1
  | JobOp.runOp now => (analysis_run a now).1
  | JobOp.rerunOp uid => (analysis_rerun a uid).1
  | JobOp.runnerOp env ind => (run_exomiser_analysis env ind a).1

/-- The committed row after a sequence of operations. -/
def applyJobOps (ops : List JobOp) (a : Analysis) : Analysis :=
  ops.foldl (fun x op => applyJobOp op x) a

/-! ## Sample records used by the claim theorems and witnesses -/

/-- sampleIndividual with different values of the fields
generate_phenopacket_yaml does not read. -/
def sampleIndividual2 : Individual :=
  { sampleIndividual with
      id := 9
      full_name := "John Doe"
      medical_history := some "notes"
      diagnosis := some "epilepsy"
      phenopacket_yaml := some "stale"
      created_by := 2
      updated_by := 2
      created_at := 42 }

/-- A valid edit form for the sample analysis. -/
def sampleAnalysisForm : AnalysisForm :=
  { name := "run1"
    description := ""
    individual_id := some 1
    vcf_filename := "sample.vcf"
    genome_assembly := "hg19"
    analysis_mode := "FULL"
    frequency_threshold := none
    pathogenicity_threshold := none }

/-- The sample analysis after a failed run, holding an error and a previously
recorded HTML report path. -/
def sampleFailedAnalysis : Analysis :=
  { samplePendingAnalysis with
      status := TaskStatus.FAILED
      error_message := some "Exomiser process failed with return code 1"
      output_html := some "/opt/exomiser/ikdrc/results/P0001-exomiser.html" }

/-- The sample analysis while RUNNING. -/
def sampleRunningAnalysis : Analysis :=
  { samplePendingAnalysis with status := TaskStatus.RUNNING }

/-- The sample analysis in the CANCELLED status. -/
def sampleCancelledAnalysis : Analysis :=
  { samplePendingAnalysis with status := TaskStatus.CANCELLED }

/-- A RUNNING task row of the older schema variant. -/
def sampleRunningTask : TaskRow :=
  { id := 1
    name := "t1"
    description := none
    patient_id := 1
    vcf_filename := "sample.vcf"
    genome_assembly := GenomeAssembly.hg19
    analysis_mode := "PASS_ONLY"
    frequency_threshold := 1
    pathogenicity_threshold := 1/2
    status := TaskStatus.RUNNING
    error_message := none
    user_id := 1 }

/-- A valid edit form for the sample task. -/
def sampleTaskForm : TaskForm :=
  { name := "t1"
    description := ""
    patient_id := some 1
    vcf_filename := "sample.vcf"
    genome_assembly := "hg19"
    analysis_mode := "PASS_ONLY"
    frequency_threshold := none
    pathogenicity_threshold := none }

/-- A subject form whose external identifier is P0001. -/
def sampleSubjectForm : SubjectForm :=
  { individual_id := "P0001"
    full_name := "Jane Roe"
    sex := "FEMALE"
    age_years := some 10
    medical_history := ""
    diagnosis := ""
    hpo_terms := [sampleHpoTerm]
    vcf_file := some "sample.vcf" }

/-- A patient row owned by user 1 with external identifier P0001. -/
def samplePatient : Patient :=
  { id := 1
    user_id := 1
    individual_id := "P0001"
    full_name := "Jane Roe"
    sex := SexType.FEMALE
    age_years := 10
    medical_history := none
    diagnosis := none
    hpo_terms := [sampleHpoTerm]
    vcf_file_path := "/opt/exomiser/ikdrc/vcf/1_P0001_ab12cd34.vcf"
    phenopacket_yaml := none }

/-! ## Claim theorems -/

/-- Claim C1 (code bug evidence): even in an environment where the external
tool would exit 0 and the results directory holds an HTML report whose name
contains the subject identity, the background runner marks the job FAILED
with the TypeError text, because analysis.py lines 336-340 pass keyword
arguments that models.py line 108 does not accept; the exit-code branch is
unreachable. -/
theorem claim_C1 :
    (run_exomiser_analysis sampleEnvOk sampleIndividual samplePendingAnalysis).1.status
      = TaskStatus.FAILED
  ∧ (run_exomiser_analysis sampleEnvOk sampleIndividual samplePendingAnalysis).1.error_message
      = some ("Error running analysis: generate_phenopacket_yaml() got an unexpected keyword argument \x27genome_assembly\x27")
  ∧ (run_exomiser_analysis sampleEnvOk sampleIndividual samplePendingAnalysis).1.output_html
      = none
  ∧ sampleEnvOk.exitCode = 0
  ∧ sampleEnvOk.resultsListing.find?
      (fun f => pyEndsWith f ".html" && strContains f sampleIndividual.identity)
      = some "P0001-exomiser.html" := by
  exact ⟨rfl, rfl, rfl, rfl, rfl⟩

/-- Claim C5: for the scenario subject P0001 (age 10, one phenotype term
HP:0001250 Seizures, a file on record) the generated phenopacket structure has
exactly one phenotypicFeatures entry with that type id and label, subject age
"10Y", and sex is mapped via MALE to MALE, FEMALE to FEMALE, OTHER to
OTHER_SEX, UNKNOWN to UNKNOWN_SEX. -/
theorem claim_C5 (creator nowIso : String) :
    (((phenopacketObj sampleIndividual creator nowIso).get? "phenopacket").bind
        (fun p => p.get? "phenotypicFeatures"))
      = some (YamlVal.arr [YamlVal.obj [("type", YamlVal.obj
          [("id", YamlVal.s "HP:0001250"), ("label", YamlVal.s "Seizures")])]])
  ∧ (((((phenopacketObj sampleIndividual creator nowIso).get? "phenopacket").bind
        (fun p => p.get? "subject")).bind (fun b => b.get? "age")).bind
          (fun g => g.get? "age"))
      = some (YamlVal.s "10Y")
  ∧ (∀ sx : SexType, sex_map_get sx.value =
      match sx with
      | SexType.MALE => "MALE"
      | SexType.FEMALE => "FEMALE"
      | SexType.OTHER => "OTHER_SEX"
      | SexType.UNKNOWN => "UNKNOWN_SEX") := by
  refine ⟨rfl, rfl, ?_⟩
  intro sx
  cases sx <;> rfl

/-- Witness for C5 at a concrete creator and timestamp. -/
theorem claim_C5_witness :
    (((phenopacketObj sampleIndividual "Exomiser Web Interface" "2025-01-01T00:00:00").get?
        "phenopacket").bind (fun p => p.get? "phenotypicFeatures"))
      = some (YamlVal.arr [YamlVal.obj [("type", YamlVal.obj
          [("id", YamlVal.s "HP:0001250"), ("label", YamlVal.s "Seizures")])]]) :=
  (claim_C5 "Exomiser Web Interface" "2025-01-01T00:00:00").1

/-- Claim C7: the output-polling route always returns success with the buffer
list and its length, and an empty list with length 0 when no buffer exists for
the id. -/
theorem claim_C7 (outputs : List (Nat × List String)) (analysis_id : Nat) :
    (analysis_output outputs analysis_id).success = true
  ∧ (analysis_output outputs analysis_id).line_count
      = (analysis_output outputs analysis_id).output.length
  ∧ (outputs.find? (fun e => e.1 = analysis_id) = none →
        (analysis_output outputs analysis_id).output = []
      ∧ (analysis_output outputs analysis_id).line_count = 0) := by
  unfold analysis_output
  cases h : outputs.find? (fun e => e.1 = analysis_id) <;> simp

/-- Witness for C7 at an id with no buffer entry. -/
theorem claim_C7_witness :
    (analysis_output [(1, ["line"])] 2).output = []
  ∧ (analysis_output [(1, ["line"])] 2).line_count = 0 :=
  (claim_C7 [(1, ["line"])] 2).2.2 rfl

/-- Claim C10: rerun has no status precondition - from any status it resets
the job to PENDING (clearing timestamps, error and output) and launches the
runner - while run launches only from PENDING or FAILED. -/
theorem claim_C10 :
    (∀ (a : Analysis) (uid : Nat),
        (analysis_rerun a uid).2 = true
      ∧ (analysis_rerun a uid).1.status = TaskStatus.PENDING
      ∧ (analysis_rerun a uid).1.started_at = none
      ∧ (analysis_rerun a uid).1.completed_at = none
      ∧ (analysis_rerun a uid).1.error_message = none
      ∧ (analysis_rerun a uid).1.output_html = none)
  ∧ (∀ (a : Analysis) (now : Nat),
        (analysis_run a now).2 = true
          ↔ (a.status = TaskStatus.PENDING ∨ a.status = TaskStatus.FAILED)) := by
  constructor
  · intro a uid
    exact ⟨rfl, rfl, rfl, rfl, rfl, rfl⟩
  · intro a now
    unfold analysis_run
    split <;> simp_all

/-- Witness for C10: rerun launches even from RUNNING and COMPLETED is not
startable by run. -/
theorem claim_C10_witness :
    ((analysis_rerun sampleRunningAnalysis 1).2 = true
      ∧ (analysis_rerun sampleRunningAnalysis 1).1.status = TaskStatus.PENDING)
  ∧ ((analysis_run sampleRunningAnalysis 5).2 = true
      ↔ (sampleRunningAnalysis.status = TaskStatus.PENDING
          ∨ sampleRunningAnalysis.status = TaskStatus.FAILED)) :=
  ⟨⟨(claim_C10.1 sampleRunningAnalysis 1).1, (claim_C10.1 sampleRunningAnalysis 1).2.1⟩,
   claim_C10.2 sampleRunningAnalysis 5⟩

set_option maxRecDepth 8000 in
/-- Claim C6: generate_phenopacket_yaml is a function of the fields it reads
plus the generation timestamp, so two invocations on subjects with identical
field values and the same timestamp produce byte-for-byte identical YAML; and
the serialization (shown on the sample subject) uses insertion key order - id,
subject, phenotypicFeatures, metaData, htsFiles, not alphabetical - and block
style throughout. -/
theorem claim_C6 :
    (∀ (i1 i2 : Individual) (creator nowIso : String),
        i1.identity = i2.identity → i1.sex = i2.sex → i1.age_years = i2.age_years →
        i1.hpo_terms = i2.hpo_terms → i1.vcf_file_path = i2.vcf_file_path →
        generate_phenopacket_yaml i1 creator nowIso = generate_phenopacket_yaml i2 creator nowIso)
  ∧ generate_phenopacket_yaml sampleIndividual "Exomiser Web Interface" "2025-01-01T00:00:00"
      = "phenopacket:\n  id: P0001\n  subject:\n    id: P0001\n    sex: MALE\n    age:\n      age: 10Y\n  phenotypicFeatures:\n  - type:\n      id: HP:0001250\n      label: Seizures\n  metaData:\n    created: \x272025-01-01T00:00:00Z\x27\n    createdBy: Exomiser Web Interface\n    resources:\n    - id: hp\n      name: human phenotype ontology\n      url: http://purl.obolibrary.org/obo/hp.owl\n      version: hp/releases/latest\n      namespacePrefix: HP\n      iriPrefix: http://purl.obolibrary.org/obo/HP_\n    phenopacketSchemaVersion: \x271.0\x27\n  htsFiles:\n  - uri: ikdrc/vcf/1_P0001_ab12cd34.vcf\n    htsFormat: VCF\n    genomeAssembly: hg19\n" := by
  constructor
  · intro i1 i2 creator nowIso h1 h2 h3 h4 h5
    unfold generate_phenopacket_yaml phenopacketObj
    rw [h1, h2, h3, h4, h5]
  · rfl

/-- Witness for C6: two subjects that differ only in fields the generator does
not read produce identical bytes. -/
theorem claim_C6_witness :
    generate_phenopacket_yaml sampleIndividual2 "Exomiser Web Interface" "2025-01-01T00:00:00"
      = generate_phenopacket_yaml sampleIndividual "Exomiser Web Interface" "2025-01-01T00:00:00" :=
  claim_C6.1 sampleIndividual2 sampleIndividual "Exomiser Web Interface" "2025-01-01T00:00:00"
    rfl rfl rfl rfl rfl

/-- Counterexample to claim C2 as stated: a successful edit of a FAILED job
resets status to PENDING and clears the error, but does not clear the output
path - output_html keeps its prior non-null value (analysis.py lines 136-139
touch only status and error_message). -/
theorem claim_C2_cex :
    (analysis_edit [1] sampleFailedAnalysis sampleAnalysisForm 1).2 = true
  ∧ (analysis_edit [1] sampleFailedAnalysis sampleAnalysisForm 1).1.status = TaskStatus.PENDING
  ∧ (analysis_edit [1] sampleFailedAnalysis sampleAnalysisForm 1).1.error_message = none
  ∧ (analysis_edit [1] sampleFailedAnalysis sampleAnalysisForm 1).1.output_html
      = some "/opt/exomiser/ikdrc/results/P0001-exomiser.html" := by
  exact ⟨rfl, rfl, rfl, rfl⟩

/-- Claim C2 (amended): a successful edit of a FAILED or CANCELLED job resets
its status to PENDING and clears its error but leaves the output path
unchanged; rerun resets error_message and the output path to null and status
to PENDING before re-invoking the runner. -/
theorem claim_C2 :
    (∀ (ids : List Nat) (a : Analysis) (form : AnalysisForm) (uid : Nat),
        (a.status = TaskStatus.FAILED ∨ a.status = TaskStatus.CANCELLED) →
        (analysis_edit ids a form uid).2 = true →
          (analysis_edit ids a form uid).1.status = TaskStatus.PENDING
        ∧ (analysis_edit ids a form uid).1.error_message = none
        ∧ (analysis_edit ids a form uid).1.output_html = a.output_html)
  ∧ (∀ (a : Analysis) (uid : Nat),
        (analysis_rerun a uid).1.error_message = none
      ∧ (analysis_rerun a uid).1.output_html = none
      ∧ (analysis_rerun a uid).1.status = TaskStatus.PENDING
      ∧ (analysis_rerun a uid).2 = true) := by
  constructor
  · intro ids a form uid h hsucc
    unfold analysis_edit at hsucc ⊢
    rcases h with h | h <;> rw [h] at hsucc ⊢ <;>
      repeat' split at hsucc <;> try simp_all
  · intro a uid
    exact ⟨rfl, rfl, rfl, rfl⟩

/-- Witness for C2 at the sample FAILED analysis and a valid form. -/
theorem claim_C2_witness :
    (analysis_edit [1] sampleFailedAnalysis sampleAnalysisForm 1).1.status = TaskStatus.PENDING
  ∧ (analysis_edit [1] sampleFailedAnalysis sampleAnalysisForm 1).1.error_message = none
  ∧ (analysis_edit [1] sampleFailedAnalysis sampleAnalysisForm 1).1.output_html
      = sampleFailedAnalysis.output_html :=
  claim_C2.1 [1] sampleFailedAnalysis sampleAnalysisForm 1 (Or.inl rfl) rfl

/-- Claim C3: an edit or delete attempted on a RUNNING job is rejected and
leaves the row unchanged, in both the Analysis and the Task variant. -/
theorem claim_C3 :
    (∀ (ids : List Nat) (a : Analysis) (form : AnalysisForm) (uid : Nat),
        a.status = TaskStatus.RUNNING → analysis_edit ids a form uid = (a, false))
  ∧ (∀ (db : List Analysis) (aid : Nat) (r : Analysis),
        db.find? (fun x => x.id = aid) = some r → r.status = TaskStatus.RUNNING →
        analysis_delete db aid = (db, false))
  ∧ (∀ (pids : List Nat) (t : TaskRow) (form : TaskForm),
        t.status = TaskStatus.RUNNING → task_edit pids t form = (t, false)) := by
  refine ⟨?_, ?_, ?_⟩
  · intro ids a form uid h
    unfold analysis_edit
    rw [h]
    simp
  · intro db aid r hfind h
    unfold analysis_delete
    rw [hfind]
    simp [h]
  · intro pids t form h
    unfold task_edit
    rw [h]
    simp

/-- Witness for C3 at concrete RUNNING rows. -/
theorem claim_C3_witness :
    analysis_edit [1] sampleRunningAnalysis sampleAnalysisForm 1 = (sampleRunningAnalysis, false)
  ∧ analysis_delete [sampleRunningAnalysis] 1 = ([sampleRunningAnalysis], false)
  ∧ task_edit [1] sampleRunningTask sampleTaskForm = (sampleRunningTask, false) :=
  ⟨claim_C3.1 [1] sampleRunningAnalysis sampleAnalysisForm 1 rfl,
   claim_C3.2.1 [sampleRunningAnalysis] 1 sampleRunningAnalysis rfl rfl,
   claim_C3.2.2 [1] sampleRunningTask sampleTaskForm rfl⟩

/-- Claim C4: an add or edit submission whose external identifier duplicates
that of another existing subject in the applicable uniqueness scope (global
for Individual, per-owning-user for Patient) is rejected and the subject table
is unchanged. -/
theorem claim_C4 :
    (∀ (db : List Individual) (uid : Nat) (form : SubjectForm) (fid : Nat) (sfx : String),
        (∃ r ∈ db, r.identity = pyStrip form.individual_id) →
        individual_add db uid form fid sfx = (db, false))
  ∧ (∀ (db : List Individual) (rowId uid : Nat) (form : SubjectForm) (sfx : String),
        (∃ r ∈ db, r.identity = pyStrip form.individual_id ∧ r.id ≠ rowId) →
        individual_edit db rowId uid form sfx = (db, false))
  ∧ (∀ (db : List Patient) (uid : Nat) (form : SubjectForm) (fid : Nat) (sfx : String),
        (∃ r ∈ db, r.user_id = uid ∧ r.individual_id = pyStrip form.individual_id) →
        patient_add db uid form fid sfx = (db, false))
  ∧ (∀ (db : List Patient) (rowId uid : Nat) (form : SubjectForm),
        (∃ r ∈ db, r.user_id = uid ∧ r.individual_id = pyStrip form.individual_id ∧ r.id ≠ rowId) →
        patient_edit db rowId uid form = (db, false)) := by
  refine ⟨?_, ?_, ?_, ?_⟩
  · intro db uid form fid sfx hdup
    obtain ⟨r, hmem, hid⟩ := hdup
    have hany : db.any (fun x => decide (x.identity = pyStrip form.individual_id)) = true := by
      rw [List.any_eq_true]
      exact ⟨r, hmem, by simp [hid]⟩
    simp only [individual_add]
    repeat' split
    all_goals first | rfl | simp_all
  · intro db rowId uid form sfx hdup
    obtain ⟨r, hmem, hid, hne⟩ := hdup
    have hany : db.any (fun x => decide (x.identity = pyStrip form.individual_id ∧ x.id ≠ rowId)) = true := by
      rw [List.any_eq_true]
      exact ⟨r, hmem, by simp [hid, hne]⟩
    simp only [individual_edit]
    repeat' split
    all_goals first | rfl | simp_all
  · intro db uid form fid sfx hdup
    obtain ⟨r, hmem, hu, hid⟩ := hdup
    have hany : db.any (fun x => decide (x.user_id = uid ∧ x.individual_id = pyStrip form.individual_id)) = true := by
      rw [List.any_eq_true]
      exact ⟨r, hmem, by simp [hu, hid]⟩
    simp only [patient_add]
    repeat' split
    all_goals first | rfl | simp_all
  · intro db rowId uid form hdup
    obtain ⟨r, hmem, hu, hid, hne⟩ := hdup
    have hany : db.any (fun x => decide (x.user_id = uid ∧ x.individual_id = pyStrip form.individual_id ∧ x.id ≠ rowId)) = true := by
      rw [List.any_eq_true]
      exact ⟨r, hmem, by simp [hu, hid, hne]⟩
    simp only [patient_edit]
    repeat' split
    all_goals first | rfl | simp_all

/-- Witness for C4: duplicate P0001 submissions against tables already
holding a P0001 row are rejected in all four operations. -/
theorem claim_C4_witness :
    individual_add [sampleIndividual] 1 sampleSubjectForm 2 "ffffffff"
      = ([sampleIndividual], false)
  ∧ individual_edit [sampleIndividual, sampleIndividual2] 9 1 sampleSubjectForm "ffffffff"
      = ([sampleIndividual, sampleIndividual2], false)
  ∧ patient_add [samplePatient] 1 sampleSubjectForm 2 "ffffffff"
      = ([samplePatient], false)
  ∧ patient_edit [samplePatient, { samplePatient with id := 2, individual_id := "P0002" }] 2 1
        sampleSubjectForm
      = ([samplePatient, { samplePatient with id := 2, individual_id := "P0002" }], false) :=
  ⟨claim_C4.1 [sampleIndividual] 1 sampleSubjectForm 2 "ffffffff"
      ⟨sampleIndividual, by simp, rfl⟩,
   claim_C4.2.1 [sampleIndividual, sampleIndividual2] 9 1 sampleSubjectForm "ffffffff"
      ⟨sampleIndividual, by simp, rfl, by decide⟩,
   claim_C4.2.2.1 [samplePatient] 1 sampleSubjectForm 2 "ffffffff"
      ⟨samplePatient, by simp, rfl, rfl⟩,
   claim_C4.2.2.2 [samplePatient, { samplePatient with id := 2, individual_id := "P0002" }] 2 1
      sampleSubjectForm ⟨samplePatient, by simp, rfl, rfl, by decide⟩⟩

/-- Invariant of the semaphore discipline: the semaphore counter plus the
number of callers inside the guarded block always equals
MAX_CONCURRENT_TASKS. -/
theorem semReachable_inv (s : SemState) (h : SemReachable s) :
    s.sem + s.active = MAX_CONCURRENT_TASKS := by
  induction h with
  | refl => rfl
  | tail _ hstep ih =>
    cases hstep with
    | request => simpa using ih
    | acquire hw hs => simp only [] at ih ⊢; omega
    | release ha => simp only [] at ih ⊢; omega

/-- Claim C8: in the semaphore-guarded variant, every reachable state has at
most MAX_CONCURRENT_TASKS = 1 callers executing the external process, every
step preserves that bound, and at the cap no step can increase the number of
active processes - a further caller stays blocked until a slot frees. -/
theorem claim_C8 (s : SemState) (h : SemReachable s) :
    s.active ≤ MAX_CONCURRENT_TASKS
  ∧ (∀ t : SemState, SemStep s t → t.active ≤ MAX_CONCURRENT_TASKS)
  ∧ (s.active = MAX_CONCURRENT_TASKS → ∀ t : SemState, SemStep s t → t.active ≤ s.active) := by
  have inv := semReachable_inv s h
  refine ⟨by omega, ?_, ?_⟩
  · intro t hstep
    have invt := semReachable_inv t (Relation.ReflTransGen.tail h hstep)
    omega
  · intro hcap t hstep
    cases hstep with
    | request => simp
    | acquire hw hs =>
        exfalso
        simp only [MAX_CONCURRENT_TASKS] at inv hcap
        omega
    | release ha => simp only []; omega

/-- Witness for C8: the state with one active process, reached by an actual
request-acquire interleaving from the start state, respects the cap. -/
theorem claim_C8_witness :
    ({ sem := 0, waiting := 0, active := 1 } : SemState).active ≤ MAX_CONCURRENT_TASKS :=
  (claim_C8 { sem := 0, waiting := 0, active := 1 }
    (Relation.ReflTransGen.tail
      (Relation.ReflTransGen.tail Relation.ReflTransGen.refl (SemStep.request semStart))
      (SemStep.acquire { sem := 1, waiting := 1, active := 0 } (by decide) (by decide)))).1

/-- No single job operation introduces the CANCELLED status: if the row is
CANCELLED after the operation, it already was before. -/
theorem applyJobOp_no_cancel (op : JobOp) (a : Analysis)
    (h : (applyJobOp op a).status = TaskStatus.CANCELLED) :
    a.status = TaskStatus.CANCELLED := by
  cases op with
  | editOp ids form uid =>
    simp only [applyJobOp, analysis_edit] at h
    repeat' split at h
    all_goals simp_all
  | runOp now =>
    simp only [applyJobOp, analysis_run] at h
    repeat' split at h
    all_goals simp_all
  | rerunOp uid =>
    simp only [applyJobOp, analysis_rerun] at h
    exact absurd h (by simp)
  | runnerOp env ind =>
    simp only [applyJobOp, run_exomiser_analysis] at h
    repeat' split at h
    all_goals simp_all

/-- Claim C9: no sequence of job-subsystem operations (edit, run, rerun, or a
background-runner execution) can move a job into CANCELLED, and a newly added
job is PENDING, never CANCELLED. -/
theorem claim_C9 :
    (∀ (ops : List JobOp) (a : Analysis),
        (applyJobOps ops a).status = TaskStatus.CANCELLED →
        a.status = TaskStatus.CANCELLED)
  ∧ (∀ (ids : List Nat) (form : AnalysisForm) (uid fid : Nat) (a0 : Analysis),
        analysis_add ids form uid fid = some a0 → a0.status = TaskStatus.PENDING) := by
  constructor
  · intro ops
    induction ops with
    | nil =>
      intro a h
      simpa [applyJobOps] using h
    | cons op rest ih =>
      intro a h
      exact applyJobOp_no_cancel op a (ih (applyJobOp op a) h)
  · intro ids form uid fid a0 h
    simp only [analysis_add] at h
    repeat' split at h
    all_goals simp_all
    all_goals (cases h; rfl)

/-- Witness for C9: the empty sequence on a CANCELLED job, and the concrete
row created by a valid add is PENDING. -/
theorem claim_C9_witness :
    sampleCancelledAnalysis.status = TaskStatus.CANCELLED
  ∧ (analysis_add [1] sampleAnalysisForm 1 2).map (fun r => r.status)
      = some TaskStatus.PENDING := by
  constructor
  · exact claim_C9.1 [] sampleCancelledAnalysis rfl
  · have hx : ∃ r, analysis_add [1] sampleAnalysisForm 1 2 = some r := ⟨_, rfl⟩
    obtain ⟨r, hr⟩ := hx
    rw [hr]
    simp [claim_C9.2 [1] sampleAnalysisForm 1 2 r hr]
